import Mathlib

/-
  Verification development for the Fableist interactive-story reader.

  Shallow embedding of the reading-session core found in the repository:
  - the segment stream builder and decision history of the reader screen
    (src/app/[id].tsx, second StoryReader component: loadChapterContent,
    loadChapterContentWithHistory, handleChoice, isChapterLocked,
    unlockChapter, loadUserProgress),
  - the coin-balance arithmetic of the cloud function updateUserCoins
    (src/unnamed/part_004) and its client wrapper (src/services/userService.ts),
  - createUserDocument (src/services/userService.ts).

  JavaScript objects keyed by strings of the shape "chapterIndex-segmentIndex"
  are modelled as association lists keyed by pairs of naturals (the key format
  is injective on such pairs).  JavaScript string truthiness is modelled
  explicitly: a string field is "truthy" when it is non-empty.
-/

namespace Fableist

/-- Tag of a story segment (src/app/types/story.ts: type is text or decisionPoint). -/
inductive SegmentType where
  | text
  | decisionPoint
deriving DecidableEq, Repr

/-- A story segment as fetched (StorySegment in src/app/types/story.ts):
optional content, optional choices and a responses map (assoc list; an absent
responses object is modelled as the empty list, which is behaviourally
equivalent at every use site). -/
structure StorySegment where
  type : SegmentType
  content : Option String := none
  choices : List String := []
  responses : List (String × String) := []
deriving DecidableEq, Repr

/-- A chapter: title plus ordered segments (Chapter in src/app/types/story.ts;
the id field is never consulted by the reader logic). -/
structure Chapter where
  title : String
  segments : List StorySegment
deriving DecidableEq, Repr

/-- A story: the fields consulted by the reader session. -/
structure Story where
  title : String
  defaultCharacterName : String
  chapters : List Chapter
deriving DecidableEq, Repr

/-- A decision record as stored in decisionHistory (handleChoice in
src/app/[id].tsx builds choice, response, chapterIndex, segmentIndex,
timestamp). -/
structure DecisionRecord where
  choice : String
  response : String
  chapterIndex : Nat
  segmentIndex : Nat
  timestamp : Nat
deriving DecidableEq, Repr

/-- The decision history object: a map from (chapterIndex, segmentIndex) to a
record, modelled as an association list with unique-key update. -/
abbrev DecisionHistory := List ((Nat × Nat) × DecisionRecord)

/-- Lookup in the decision history (reading decisionHistory[key] in the source). -/
def hfind (h : DecisionHistory) (k : Nat × Nat) : Option DecisionRecord :=
  match h with
  | [] => none
  | p :: rest => if p.1 = k then some p.2 else hfind rest k

/-- Update of the decision history object at one key (the object spread
update in handleChoice, and the per-key assignments when formatting remote
choices): replaces the binding if present, otherwise appends it. -/
def hset (h : DecisionHistory) (k : Nat × Nat) (r : DecisionRecord) : DecisionHistory :=
  match h with
  | [] => [(k, r)]
  | p :: rest => if p.1 = k then (k, r) :: rest else p :: hset rest k r

/-- Lookup in a responses map (segment.responses[choice]). -/
def rget (rs : List (String × String)) (c : String) : Option String :=
  match rs with
  | [] => none
  | p :: rest => if p.1 = c then some p.2 else rget rest c

/-- Update of a responses map at one key (segment.responses[choice] = text). -/
def rset (rs : List (String × String)) (c : String) (v : String) : List (String × String) :=
  match rs with
  | [] => [(c, v)]
  | p :: rest => if p.1 = c then (c, v) :: rest else p :: rset rest c v

/-- JavaScript truthiness of an optional string field: present and non-empty. -/
def strTruthy : Option String → Bool
  | none => false
  | some s => !(s == "")

/-- A segment as it appears in the visible stream after loadChapterContent
copies it and adds index, chapterIndex, chapterTitle and (possibly)
selectedChoice. -/
structure StreamSegment where
  type : SegmentType
  content : Option String
  choices : List String
  responses : List (String × String)
  index : Nat
  chapterIndex : Nat
  chapterTitle : String
  selectedChoice : Option String
deriving DecidableEq, Repr

/-- The per-segment body of the chapter-content loop in loadChapterContent /
loadChapterContentWithHistory (src/app/[id].tsx lines 1157-1214 and
1320-1381): copy the segment, and for a decision point whose history entry
exists with a truthy (non-empty) choice, set selectedChoice and make sure the
responses map has an entry for that choice (the stored response when truthy,
otherwise a synthesized default when the existing entry is absent or falsy). -/
def annotateSegment (hist : DecisionHistory) (chapterIndex : Nat) (chapterTitle : String)
    (i : Nat) (s : StorySegment) : StreamSegment :=
  let base : StreamSegment :=
    { type := s.type, content := s.content, choices := s.choices, responses := s.responses,
      index := i, chapterIndex := chapterIndex, chapterTitle := chapterTitle,
      selectedChoice := none }
  if s.type = SegmentType.decisionPoint then
    match hfind hist (chapterIndex, i) with
    | some entry =>
      if entry.choice = "" then base
      else
        let newResponses :=
          if entry.response = "" then
            match rget s.responses entry.choice with
            | some r =>
              if r = "" then rset s.responses entry.choice ("You chose: " ++ entry.choice)
              else s.responses
            | none => rset s.responses entry.choice ("You chose: " ++ entry.choice)
          else rset s.responses entry.choice entry.response
        { base with selectedChoice := some entry.choice, responses := newResponses }
    | none => base
  else base

/-- The halting test of the loop: segment.type is decisionPoint and
segment.selectedChoice is falsy (src/app/[id].tsx lines 1220 and 1387). -/
def segIsBlockingDecision (seg : StreamSegment) : Bool :=
  seg.type = SegmentType.decisionPoint && !(strTruthy seg.selectedChoice)

/-- The chapter-content loop: process segments from index i, pushing each
annotated segment, and stop right after pushing the first blocking (not
answered) decision point. -/
def buildSegments (hist : DecisionHistory) (chapterIndex : Nat) (chapterTitle : String) :
    Nat → List StorySegment → List StreamSegment
  | _, [] => []
  | i, s :: rest =>
    if segIsBlockingDecision (annotateSegment hist chapterIndex chapterTitle i s) then
      [annotateSegment hist chapterIndex chapterTitle i s]
    else
      annotateSegment hist chapterIndex chapterTitle i s ::
        buildSegments hist chapterIndex chapterTitle (i + 1) rest

/-- Whether the history answers the decision at (chapterIndex, i) with a
truthy choice, which is exactly when the loop annotates it and continues. -/
def decisionAnswered (hist : DecisionHistory) (chapterIndex i : Nat) : Bool :=
  match hfind hist (chapterIndex, i) with
  | some entry => !(entry.choice == "")
  | none => false

/-- Source-level form of the halting test: a decision segment not answered
(with a truthy choice) by the history. -/
def blocksStream (hist : DecisionHistory) (chapterIndex i : Nat) (s : StorySegment) : Bool :=
  s.type = SegmentType.decisionPoint && !(decisionAnswered hist chapterIndex i)

/-- Position (absolute index, counting from the given start index) of the
first segment at which stream construction halts, if any. -/
def firstBlocking? (hist : DecisionHistory) (chapterIndex : Nat) :
    Nat → List StorySegment → Option Nat
  | _, [] => none
  | i, s :: rest =>
    if blocksStream hist chapterIndex i s then some i
    else firstBlocking? hist chapterIndex (i + 1) rest

/-- Annotation of every segment of a list, with indices from the given start:
the reference map against which the built stream is compared. -/
def annotateAll (hist : DecisionHistory) (chapterIndex : Nat) (chapterTitle : String) :
    Nat → List StorySegment → List StreamSegment
  | _, [] => []
  | i, s :: rest =>
    annotateSegment hist chapterIndex chapterTitle i s ::
      annotateAll hist chapterIndex chapterTitle (i + 1) rest

/-- The reader-session state mutated by loadChapterContent and handleChoice. -/
structure ReaderState where
  storySegments : List StreamSegment
  loadedChapters : List Nat
  currentChapterIndex : Nat
  decisionHistory : DecisionHistory
deriving DecidableEq, Repr

/-- The state of a freshly mounted reader: empty stream, no loaded chapters,
chapter index 0, empty decision history. -/
def initialReaderState : ReaderState :=
  { storySegments := [], loadedChapters := [], currentChapterIndex := 0, decisionHistory := [] }

/-- loadChapterContent (src/app/[id].tsx lines 1257-1433; identical logic in
loadChapterContentWithHistory with the history passed directly): return if the
chapter does not exist; return if the chapter is already in loadedChapters
(checked before any mutation); otherwise append the built segments to the
stream, record the chapter as loaded, and raise currentChapterIndex if the new
chapter index is larger. -/
def loadChapterContent (story : Story) (st : ReaderState) (chapterIndex : Nat) : ReaderState :=
  match story.chapters[chapterIndex]? with
  | none => st
  | some chapter =>
    if chapterIndex ∈ st.loadedChapters then st
    else
      { storySegments :=
          st.storySegments ++
            buildSegments st.decisionHistory chapterIndex chapter.title 0 chapter.segments,
        loadedChapters := st.loadedChapters ++ [chapterIndex],
        currentChapterIndex := max st.currentChapterIndex chapterIndex,
        decisionHistory := st.decisionHistory }

/-- Response resolution in handleChoice (src/app/[id].tsx line 1628):
segment.responses value for the choice when truthy, otherwise the synthesized
default text. -/
def resolveResponse (responses : List (String × String)) (choice : String) : String :=
  match rget responses choice with
  | some r => if r = "" then "You chose: " ++ choice else r
  | none => "You chose: " ++ choice

/-- handleChoice (src/app/[id].tsx lines 1620-1663), local-state part: return
if the tapped segment already has a truthy selectedChoice; otherwise resolve
the response text, mark every stream segment with the same
(chapterIndex, index) as selected, and write the decision record into the
history at that key. -/
def handleChoice (st : ReaderState) (seg : StreamSegment) (choice : String) (timestamp : Nat) :
    ReaderState :=
  if strTruthy seg.selectedChoice then st
  else
    { st with
      storySegments := st.storySegments.map fun s =>
        if s.index = seg.index ∧ s.chapterIndex = seg.chapterIndex then
          { s with selectedChoice := some choice,
                   responses := rset s.responses choice (resolveResponse seg.responses choice) }
        else s,
      decisionHistory :=
        hset st.decisionHistory (seg.chapterIndex, seg.index)
          { choice := choice, response := resolveResponse seg.responses choice,
            chapterIndex := seg.chapterIndex, segmentIndex := seg.index,
            timestamp := timestamp } }

/-- Test matching the stream segment carrying a given decision key. -/
def segmentMatchesKey (k : Nat × Nat) (s : StreamSegment) : Bool :=
  s.chapterIndex = k.1 && s.index = k.2

/-- Recording a choice for a decision key through the interface the screen
offers: handleChoice is invoked with the rendered segment, which is the stream
segment carrying that key. -/
def handleChoiceAtKey (st : ReaderState) (k : Nat × Nat) (choice : String) (timestamp : Nat) :
    ReaderState :=
  match st.storySegments.find? (segmentMatchesKey k) with
  | none => st
  | some seg => handleChoice st seg choice timestamp

/-- isChapterLocked (src/app/[id].tsx lines 1436-1444): the first five
chapters (indices 0 through 4) are free; otherwise locked unless the chapter
index is in unlockedChapters (membership models Array.includes). -/
def isChapterLocked (unlockedChapters : List Nat) (chapterIndex : Nat) : Bool :=
  if chapterIndex ≤ 4 then false
  else if chapterIndex ∈ unlockedChapters then false
  else true

/-- Coin-balance operation accepted by the cloud function updateUserCoins
(src/unnamed/part_004 lines 113-118). -/
inductive CoinOperation where
  | add
  | subtract
  | set
deriving DecidableEq, Repr

/-- Server-side balance arithmetic of the cloud function updateUserCoins
(src/unnamed/part_004 lines 141-160): add sums, subtract clamps at zero
(Math.max(0, currentCoins - amount)), set overwrites.  Balances are modelled
as integers, matching JavaScript number arithmetic on these paths. -/
def updateUserCoins (currentCoins : Int) (amount : Int) : CoinOperation → Int
  | CoinOperation.add => currentCoins + amount
  | CoinOperation.subtract => max 0 (currentCoins - amount)
  | CoinOperation.set => amount

/-- Folding a sequence of coin operations through the server arithmetic. -/
def applyCoinOps (b : Int) (ops : List (CoinOperation × Int)) : Int :=
  ops.foldl (fun acc p => updateUserCoins acc p.2 p.1) b

/-- Result shape of the client wrapper updateUserCoins
(src/services/userService.ts lines 434-470): success flag plus the balances
returned by the cloud function when it ran. -/
structure CoinUpdateResult where
  success : Bool
  previousBalance : Option Int
  newBalance : Option Int
deriving DecidableEq, Repr

/-- State touched by the unlock transaction in src/app/[id].tsx:
authentication, the client mirror of the profile coins (some b when a profile
is loaded, with b standing for userProfile.coins read as zero when absent),
the authoritative server balance, the local unlockedChapters array, and a log
of the remote coin operations actually issued. -/
structure UnlockState where
  authenticated : Bool
  profileCoins : Option Int
  remoteCoins : Int
  unlockedChapters : List Nat
  coinOps : List (CoinOperation × Int)
deriving DecidableEq, Repr

/-- Client wrapper updateUserCoins (src/services/userService.ts lines
434-470): a negative amount is rejected locally with no remote call;
otherwise the cloud function runs the server arithmetic on the authoritative
balance and reports success with both balances.  The issued operation is
recorded in the log. -/
def updateUserCoinsClient (st : UnlockState) (amount : Int) (op : CoinOperation) :
    UnlockState × CoinUpdateResult :=
  if amount < 0 then (st, { success := false, previousBalance := none, newBalance := none })
  else
    let nb := updateUserCoins st.remoteCoins amount op
    ({ st with remoteCoins := nb, coinOps := st.coinOps ++ [(op, amount)] },
     { success := true, previousBalance := some st.remoteCoins, newBalance := some nb })

/-- Outcome of the unlock attempt, labelling the distinct return/alert paths
of unlockChapter in src/app/[id].tsx lines 1447-1493. -/
inductive UnlockOutcome where
  | authRequired
  | insufficientCoins (balance : Int) (cost : Int)
  | coinUpdateFailed
  | refundedFailure
  | unlocked
deriving DecidableEq, Repr

/-- unlockChapter (src/app/[id].tsx lines 1447-1493): require authentication
and a loaded profile; require currentCoins at least the cost of 5 (else alert
with both balance and cost and return, nothing mutated); debit 5 coins
remotely; on remote mark-unlocked failure (the unlockServiceOk parameter),
credit 5 coins back and fail; on success add the chapter locally and refresh
the profile mirror from the authoritative balance. -/
def unlockChapter (st : UnlockState) (chapterIndex : Nat) (unlockServiceOk : Bool) :
    UnlockState × UnlockOutcome :=
  if st.authenticated = false then (st, UnlockOutcome.authRequired)
  else
    match st.profileCoins with
    | none => (st, UnlockOutcome.authRequired)
    | some currentCoins =>
      let coinCost : Int := 5
      if currentCoins < coinCost then (st, UnlockOutcome.insufficientCoins currentCoins coinCost)
      else
        let r1 := updateUserCoinsClient st coinCost CoinOperation.subtract
        if r1.2.success = false then (r1.1, UnlockOutcome.coinUpdateFailed)
        else if unlockServiceOk = false then
          let r2 := updateUserCoinsClient r1.1 coinCost CoinOperation.add
          (r2.1, UnlockOutcome.refundedFailure)
        else
          ({ r1.1 with
              unlockedChapters := r1.1.unlockedChapters ++ [chapterIndex],
              profileCoins := some r1.1.remoteCoins }, UnlockOutcome.unlocked)

/-- One stored user choice inside the remote library document
(userChoices array read by loadUserProgress in src/app/[id].tsx). -/
structure UserChoice where
  choice : String
  response : String
  chapterIndex : Nat
  segmentIndex : Nat
  timestamp : Nat
deriving DecidableEq, Repr

/-- The remote library document fields consulted by loadUserProgress. -/
structure LibraryDoc where
  userChoices : List UserChoice
  characterName : Option String
  currentChapter : Nat
deriving DecidableEq, Repr

/-- Conversion of the remote userChoices array into the keyed decision
history (the forEach over userChoices in loadUserProgress, src/app/[id].tsx
lines 836-850). -/
def formatHistory (choices : List UserChoice) : DecisionHistory :=
  choices.foldl
    (fun h c =>
      hset h (c.chapterIndex, c.segmentIndex)
        { choice := c.choice, response := c.response, chapterIndex := c.chapterIndex,
          segmentIndex := c.segmentIndex, timestamp := c.timestamp })
    []

/-- Result of the remote progress read in loadUserProgress: the getDoc call
either completes (with the document when it exists, or a confirmed not-found
when it does not), or throws (any ambiguous network or read error, landing in
the catch block). -/
inductive ProgressLoadResult where
  | loaded (doc : Option LibraryDoc)
  | failed
deriving DecidableEq, Repr

/-- The session state produced by loadUserProgress: the reader state after
the chapter loads it performs, the character name it installs (none when it
leaves the name untouched), and whether the reader is still on the first
page. -/
structure SessionStart where
  readerState : ReaderState
  characterName : Option String
  isFirstPage : Bool
deriving DecidableEq, Repr

/-- The restore loop of loadUserProgress: load every chapter from 0 up to and
including startChapter (loadChapterContentWithHistory already ignores chapter
indices beyond the story). -/
def loadChaptersUpTo (story : Story) (st : ReaderState) (startChapter : Nat) : ReaderState :=
  (List.range (startChapter + 1)).foldl (loadChapterContent story) st

/-- loadUserProgress for an authenticated reader (src/app/[id].tsx lines
809-944).  On a successful read of an existing document the remote choices
are formatted into the history; with a truthy saved character name the first
page is skipped and chapters 0 through the saved chapter are loaded with that
history, otherwise the default name is installed and nothing is loaded yet.
On a confirmed not-found, the default name is installed and nothing is
loaded.  On a thrown (ambiguous) error, the catch block installs an empty
decision history and loads chapter 0. -/
def loadUserProgress (story : Story) (res : ProgressLoadResult) : SessionStart :=
  match res with
  | ProgressLoadResult.failed =>
    { readerState := loadChapterContent story initialReaderState 0,
      characterName := none, isFirstPage := true }
  | ProgressLoadResult.loaded none =>
    { readerState := initialReaderState,
      characterName := some story.defaultCharacterName, isFirstPage := true }
  | ProgressLoadResult.loaded (some data) =>
    let hist := formatHistory data.userChoices
    if strTruthy data.characterName then
      { readerState :=
          loadChaptersUpTo story
            { initialReaderState with
                decisionHistory := hist, currentChapterIndex := data.currentChapter }
            data.currentChapter,
        characterName := data.characterName, isFirstPage := false }
    else
      { readerState := { initialReaderState with decisionHistory := hist },
        characterName := some story.defaultCharacterName, isFirstPage := true }

/-- The authentication-provider user object fields read by
createUserDocument (src/services/userService.ts lines 41-75). -/
structure AuthUser where
  uid : String
  displayName : Option String
  email : Option String
deriving DecidableEq, Repr

/-- The user profile document seeded by createUserDocument. -/
structure UserDoc where
  coins : Int
  displayName : String
  email : Option String
  joinDate : String
deriving DecidableEq, Repr

/-- Display-name fallback chain of createUserDocument:
user.displayName, else the part of user.email before the first at-sign, else
the literal "User" (each step skipped when absent or empty, per JavaScript
truthiness). -/
def resolveDisplayName (user : AuthUser) : String :=
  let fromEmail :=
    match user.email with
    | some e =>
      let localPart := (e.splitOn "@").headD ""
      if localPart = "" then "User" else localPart
    | none => "User"
  match user.displayName with
  | some d => if d = "" then fromEmail else d
  | none => fromEmail

/-- createUserDocument (src/services/userService.ts lines 41-75): read the
user document; when it already exists, write nothing; when it does not,
create it with 20 starting coins, the resolved display name, the email of the
auth user, and the join date. -/
def createUserDocument (store : Option UserDoc) (user : AuthUser) (joinDate : String) :
    Option UserDoc :=
  match store with
  | some existing => some existing
  | none =>
    some { coins := 20, displayName := resolveDisplayName user, email := user.email,
           joinDate := joinDate }

/-- Concrete text segment used by the example inputs. -/
def sampleTextA : StorySegment := { type := SegmentType.text, content := some "An opening line." }

/-- Concrete decision segment with two choices and both responses present. -/
def sampleDecision : StorySegment :=
  { type := SegmentType.decisionPoint, choices := ["left", "right"],
    responses := [("left", "You went left."), ("right", "You went right.")] }

/-- Concrete closing text segment. -/
def sampleTextB : StorySegment := { type := SegmentType.text, content := some "The road continues." }

/-- Segments of a chapter whose second segment is a decision point. -/
def sampleChapterSegs : List StorySegment := [sampleTextA, sampleDecision, sampleTextB]

/-- Segments of a chapter that opens directly with a decision point. -/
def decisionFirstSegs : List StorySegment := [sampleDecision, sampleTextB]

/-- A history holding a record for key (0, 0) whose stored choice is the
empty string (falsy in the source). -/
def emptyChoiceHistory : DecisionHistory :=
  [((0, 0), { choice := "", response := "", chapterIndex := 0, segmentIndex := 0,
              timestamp := 0 })]

/-- A two-chapter story used by the concrete checks. -/
def sampleStory : Story :=
  { title := "Sample", defaultCharacterName := "Reader",
    chapters := [{ title := "One", segments := sampleChapterSegs },
                 { title := "Two", segments := [sampleTextB] }] }

/-- A story whose only chapter has an empty segments list. -/
def emptyChapterStory : Story :=
  { title := "Hollow", defaultCharacterName := "Reader",
    chapters := [{ title := "Empty", segments := [] }] }

/-- The stream form of sampleDecision sitting unanswered at key (0, 0). -/
def sampleDecisionStream : StreamSegment :=
  { type := SegmentType.decisionPoint, content := none, choices := ["left", "right"],
    responses := [("left", "You went left."), ("right", "You went right.")],
    index := 0, chapterIndex := 0, chapterTitle := "One", selectedChoice := none }

/-- A reader state showing a single unanswered decision point. -/
def sampleReaderState : ReaderState :=
  { storySegments := [sampleDecisionStream], loadedChapters := [0],
    currentChapterIndex := 0, decisionHistory := [] }

/-- An authenticated unlock state whose mirror and server balance agree at 20. -/
def richUnlockState : UnlockState :=
  { authenticated := true, profileCoins := some 20, remoteCoins := 20,
    unlockedChapters := [], coinOps := [] }

/-- An authenticated unlock state holding 3 coins, below the cost of 5. -/
def poorUnlockState : UnlockState :=
  { authenticated := true, profileCoins := some 3, remoteCoins := 3,
    unlockedChapters := [], coinOps := [] }

/-- A concrete auth user with no display name and an email address. -/
def sampleAuthUser : AuthUser :=
  { uid := "u1", displayName := none, email := some "max@example.com" }

/-- A concrete pre-existing user document. -/
def sampleUserDoc : UserDoc :=
  { coins := 7, displayName := "Pat", email := some "pat@example.com", joinDate := "2024-01-01" }

/-- Looking up the key just written into the history yields the new record. -/
theorem hfind_hset_self (h : DecisionHistory) (k : Nat × Nat) (r : DecisionRecord) :
    hfind (hset h k r) k = some r := by
  induction h with
  | nil => simp [hset, hfind]
  | cons p rest ih =>
    by_cases hp : p.1 = k
    · simp [hset, hfind, hp]
    · simp [hset, hfind, hp, ih]

/-- The halting test applied to an annotated segment agrees with the
source-level test on the raw segment and the history. -/
theorem segIsBlocking_annotate (hist : DecisionHistory) (ci : Nat) (title : String)
    (i : Nat) (s : StorySegment) :
    segIsBlockingDecision (annotateSegment hist ci title i s) = blocksStream hist ci i s := by
  unfold annotateSegment segIsBlockingDecision blocksStream decisionAnswered strTruthy
  by_cases hT : s.type = SegmentType.decisionPoint
  · rw [if_pos hT]
    cases hE : hfind hist (ci, i) with
    | none => simp [hT]
    | some entry =>
      by_cases hc : entry.choice = ""
      · simp [hT, hc]
      · have hbeq : (entry.choice == "") = false := by
          simpa using hc
        simp [hT, hc, hbeq]
  · rw [if_neg hT]
    have : (s.type = SegmentType.decisionPoint) = False := by simp [hT]
    simp [this]

/-- The index of the first halting segment is at least the start index. -/
theorem firstBlocking_le (hist : DecisionHistory) (ci : Nat) :
    ∀ (segs : List StorySegment) (i p : Nat),
      firstBlocking? hist ci i segs = some p → i ≤ p := by
  intro segs
  induction segs with
  | nil => intro i p h; simp [firstBlocking?] at h
  | cons s rest ih =>
    intro i p h
    unfold firstBlocking? at h
    by_cases hb : blocksStream hist ci i s = true
    · rw [if_pos hb] at h
      cases h
      exact Nat.le_refl _
    · rw [if_neg hb] at h
      have := ih (i + 1) p h
      omega

/-- When a halting segment exists at position p, the built stream is the
annotated prefix of the segments up to and including p. -/
theorem buildSegments_of_firstBlocking_some (hist : DecisionHistory) (ci : Nat)
    (title : String) :
    ∀ (segs : List StorySegment) (i p : Nat), firstBlocking? hist ci i segs = some p →
      buildSegments hist ci title i segs =
        annotateAll hist ci title i (segs.take (p + 1 - i)) := by
  intro segs
  induction segs with
  | nil => intro i p h; simp [firstBlocking?] at h
  | cons s rest ih =>
    intro i p h
    unfold firstBlocking? at h
    unfold buildSegments
    rw [segIsBlocking_annotate]
    by_cases hb : blocksStream hist ci i s = true
    · rw [if_pos hb] at h ⊢
      cases h
      have h1 : i + 1 - i = 1 := by omega
      rw [h1]
      simp [annotateAll]
    · rw [if_neg hb] at h ⊢
      have hip : i + 1 ≤ p := firstBlocking_le hist ci rest (i + 1) p h
      rw [ih (i + 1) p h]
      have h1 : p + 1 - i = (p + 1 - (i + 1)) + 1 := by omega
      rw [h1, List.take_succ_cons]
      rfl

/-- When no halting segment exists, the built stream is the annotation of the
whole segment list. -/
theorem buildSegments_of_firstBlocking_none (hist : DecisionHistory) (ci : Nat)
    (title : String) :
    ∀ (segs : List StorySegment) (i : Nat), firstBlocking? hist ci i segs = none →
      buildSegments hist ci title i segs = annotateAll hist ci title i segs := by
  intro segs
  induction segs with
  | nil => intro i _; rfl
  | cons s rest ih =>
    intro i h
    unfold firstBlocking? at h
    unfold buildSegments
    rw [segIsBlocking_annotate]
    by_cases hb : blocksStream hist ci i s = true
    · rw [if_pos hb] at h
      simp at h
    · rw [if_neg hb] at h ⊢
      rw [ih (i + 1) h]
      rfl

/-- Mapping a function that does not disturb the predicate commutes with
find?. -/
theorem find?_map_eq (p : StreamSegment → Bool) (f : StreamSegment → StreamSegment)
    (hpres : ∀ s, p (f s) = p s) :
    ∀ l : List StreamSegment, (l.map f).find? p = (l.find? p).map f := by
  intro l
  induction l with
  | nil => rfl
  | cons a t ih =>
    by_cases ha : p a = true
    · rw [List.map_cons, List.find?_cons_of_pos _ (by rw [hpres]; exact ha),
        List.find?_cons_of_pos _ ha]
      rfl
    · rw [List.map_cons, List.find?_cons_of_neg _ (by rw [hpres]; simpa using ha),
        List.find?_cons_of_neg _ (by simpa using ha), ih]

/-- Nonnegativity is preserved by any sequence of coin operations with
nonnegative amounts. -/
theorem applyCoinOps_nonneg :
    ∀ (ops : List (CoinOperation × Int)) (b : Int),
      0 ≤ b → (∀ p ∈ ops, 0 ≤ p.2) → 0 ≤ applyCoinOps b ops := by
  intro ops
  induction ops with
  | nil =>
    intro b hb _
    simpa [applyCoinOps] using hb
  | cons p rest ih =>
    intro b hb hops
    have h0 : 0 ≤ p.2 := hops p (List.mem_cons_self p rest)
    have hb2 : 0 ≤ updateUserCoins b p.2 p.1 := by
      cases hp : p.1
      · simp only [updateUserCoins]
        omega
      · simp only [updateUserCoins]
        exact le_max_left 0 _
      · simp only [updateUserCoins]
        exact h0
    have hstep : applyCoinOps b (p :: rest) = applyCoinOps (updateUserCoins b p.2 p.1) rest := by
      simp [applyCoinOps]
    rw [hstep]
    exact ih _ hb2 (fun q hq => hops q (List.mem_cons_of_mem p hq))

/-- C2 (amended): for every chapter and decision history, the built stream is
the annotated contiguous prefix of the segments up to and including the first
decision segment whose key has no history record bearing a non-empty choice;
when no such segment exists the whole chapter is annotated and emitted, so
such a decision is the only condition that halts construction mid-chapter. -/
theorem buildSegments_prefix_to_first_unanswered (hist : DecisionHistory) (ci : Nat)
    (title : String) (segs : List StorySegment) :
    (∀ p, firstBlocking? hist ci 0 segs = some p →
        buildSegments hist ci title 0 segs =
          annotateAll hist ci title 0 (segs.take (p + 1))) ∧
    (firstBlocking? hist ci 0 segs = none →
        buildSegments hist ci title 0 segs = annotateAll hist ci title 0 segs) := by
  constructor
  · intro p h
    have h2 := buildSegments_of_firstBlocking_some hist ci title segs 0 p h
    simpa using h2
  · intro h
    exact buildSegments_of_firstBlocking_none hist ci title segs 0 h

/-- Witness for C2: on a chapter whose segment 1 is an unanswered decision,
the built stream is exactly the annotated two-segment prefix. -/
theorem buildSegments_prefix_witness :
    firstBlocking? ([] : DecisionHistory) 0 0 sampleChapterSegs = some 1 ∧
    buildSegments [] 0 "One" 0 sampleChapterSegs =
      annotateAll [] 0 "One" 0 (sampleChapterSegs.take 2) :=
  ⟨by decide,
   (buildSegments_prefix_to_first_unanswered [] 0 "One" sampleChapterSegs).1 1 (by decide)⟩

/-- Counterexample for C2 as stated: in decisionFirstSegs the only decision
segment is at position 0 and its key (0, 0) does have a record in
emptyChoiceHistory, yet construction halts after 1 of the 2 segments, because
the stored choice is the empty string (falsy in the source), so a missing
record is not the only condition that halts construction mid-chapter. -/
theorem buildSegments_halts_despite_record :
    (hfind emptyChoiceHistory (0, 0)).isSome = true ∧
    decisionFirstSegs.length = 2 ∧
    (decisionFirstSegs[0]?).map StorySegment.type = some SegmentType.decisionPoint ∧
    (decisionFirstSegs[1]?).map StorySegment.type = some SegmentType.text ∧
    (buildSegments emptyChoiceHistory 0 "One" 0 decisionFirstSegs).length = 1 := by
  decide

/-- C4: appending a chapter to the stream twice yields the same state as
appending it once; the second call is a no-op because the chapter is already
in the loaded-chapters set, which is consulted before any mutation. -/
theorem loadChapterContent_idempotent (story : Story) (st : ReaderState) (c : Nat) :
    loadChapterContent story (loadChapterContent story st c) c =
      loadChapterContent story st c := by
  unfold loadChapterContent
  cases hch : story.chapters[c]? with
  | none => simp
  | some chapter =>
    by_cases hc : c ∈ st.loadedChapters
    · simp [hc]
    · simp [hc]

/-- C5: chapters with index below the free threshold of 5 are never locked,
whatever the unlocked set holds; from index 5 on, a chapter is locked exactly
when it is not in the unlocked set. -/
theorem isChapterLocked_spec (i : Nat) (u : List Nat) :
    (i < 5 → isChapterLocked u i = false) ∧
    (5 ≤ i → (isChapterLocked u i = true ↔ i ∉ u)) := by
  constructor
  · intro h
    unfold isChapterLocked
    rw [if_pos (by omega)]
  · intro h
    unfold isChapterLocked
    rw [if_neg (by omega)]
    by_cases hm : i ∈ u
    · simp [hm]
    · simp [hm]

/-- Witness for C5 at chapter 3 (free) and chapter 7 (locked unless member). -/
theorem isChapterLocked_spec_witness :
    isChapterLocked [9] 3 = false ∧ (isChapterLocked [9] 7 = true ↔ 7 ∉ [9]) :=
  ⟨(isChapterLocked_spec 3 [9]).1 (by omega), (isChapterLocked_spec 7 [9]).2 (by omega)⟩

/-- C1: for an authenticated reader whose profile mirror agrees with the
server balance and covers the cost, an unlock whose coin debit succeeds but
whose remote mark-chapter-unlocked call fails issues a compensating credit of
the same amount (first subtract 5, then add 5), leaves the net server balance
unchanged, reports failure, and does not add the chapter to the local
unlockedChapters set. -/
theorem unlockChapter_refunds_on_mark_failure (st : UnlockState) (i : Nat) (b : Int)
    (hauth : st.authenticated = true) (hprof : st.profileCoins = some b)
    (hmirror : st.remoteCoins = b) (hcost : 5 ≤ b) :
    (unlockChapter st i false).1.remoteCoins = st.remoteCoins ∧
    (unlockChapter st i false).2 = UnlockOutcome.refundedFailure ∧
    (unlockChapter st i false).1.unlockedChapters = st.unlockedChapters ∧
    (unlockChapter st i false).1.coinOps =
      st.coinOps ++ [(CoinOperation.subtract, 5), (CoinOperation.add, 5)] := by
  have hnotlt : ¬ b < 5 := by omega
  have hamount : ¬ ((5 : Int) < 0) := by omega
  simp only [unlockChapter, updateUserCoinsClient, updateUserCoins, hauth, hprof, hmirror,
    if_neg hamount, if_neg hnotlt]
  refine ⟨?_, by simp, by simp, by simp⟩
  simp
  omega

/-- Witness for C1 at a balance of 20: the refund restores 20 and the log
shows the debit followed by the compensating credit. -/
theorem unlockChapter_refunds_witness :
    (unlockChapter richUnlockState 5 false).1.remoteCoins = richUnlockState.remoteCoins ∧
    (unlockChapter richUnlockState 5 false).2 = UnlockOutcome.refundedFailure ∧
    (unlockChapter richUnlockState 5 false).1.unlockedChapters =
      richUnlockState.unlockedChapters ∧
    (unlockChapter richUnlockState 5 false).1.coinOps =
      richUnlockState.coinOps ++ [(CoinOperation.subtract, 5), (CoinOperation.add, 5)] :=
  unlockChapter_refunds_on_mark_failure richUnlockState 5 20 rfl rfl rfl (by omega)

/-- C6: with a loaded profile whose balance is below the cost of 5, the
unlock attempt fails with the insufficient-coins outcome carrying both the
current balance and the cost, and the state is returned untouched: no remote
coin operation is issued and neither unlockedChapters nor any balance
changes. -/
theorem unlockChapter_insufficient_coins (st : UnlockState) (i : Nat) (ok : Bool) (b : Int)
    (hauth : st.authenticated = true) (hprof : st.profileCoins = some b) (hlt : b < 5) :
    unlockChapter st i ok = (st, UnlockOutcome.insufficientCoins b 5) := by
  simp only [unlockChapter, hauth, hprof, if_pos hlt]
  simp

/-- Witness for C6 at the spec scenario: balance 3, cost 5, chapter 5. -/
theorem unlockChapter_insufficient_coins_witness :
    unlockChapter poorUnlockState 5 true =
      (poorUnlockState, UnlockOutcome.insufficientCoins 3 5) :=
  unlockChapter_insufficient_coins poorUnlockState 5 true 3 rfl rfl (by omega)

/-- C9: the server-side subtract operation sets the balance to
max(0, b - a); starting from a nonnegative balance, no sequence of add,
subtract or set operations with nonnegative amounts can drive the stored
balance negative. -/
theorem updateUserCoins_never_negative (b : Int) (ops : List (CoinOperation × Int))
    (hb : 0 ≤ b) (hops : ∀ p ∈ ops, 0 ≤ p.2) :
    (∀ a : Int, updateUserCoins b a CoinOperation.subtract = max 0 (b - a)) ∧
    0 ≤ applyCoinOps b ops := by
  exact ⟨fun _ => rfl, applyCoinOps_nonneg ops b hb hops⟩

/-- Witness for C9: from balance 20, an oversized subtract clamps at zero and
a concrete operation sequence stays nonnegative. -/
theorem updateUserCoins_never_negative_witness :
    updateUserCoins 20 25 CoinOperation.subtract = max 0 (20 - 25) ∧
    0 ≤ applyCoinOps 20
        [(CoinOperation.subtract, 25), (CoinOperation.add, 3), (CoinOperation.set, 7)] :=
  have h := updateUserCoins_never_negative 20
    [(CoinOperation.subtract, 25), (CoinOperation.add, 3), (CoinOperation.set, 7)]
    (by omega) (by decide)
  ⟨h.1 25, h.2⟩

/-- C10: createUserDocument leaves an existing document entirely unchanged,
creates a document seeded with exactly 20 coins only when none exists, and is
idempotent at the public interface: a second call on the resulting store is a
no-op. -/
theorem createUserDocument_idempotent (store : Option UserDoc) (user : AuthUser)
    (jd : String) :
    (∀ d, store = some d → createUserDocument store user jd = some d) ∧
    (store = none → (createUserDocument store user jd).map UserDoc.coins = some 20) ∧
    (∀ (user2 : AuthUser) (jd2 : String),
      createUserDocument (createUserDocument store user jd) user2 jd2 =
        createUserDocument store user jd) := by
  refine ⟨?_, ?_, ?_⟩
  · intro d hd
    subst hd
    rfl
  · intro h
    subst h
    rfl
  · intro user2 jd2
    cases store <;> rfl

/-- Witness for C10: an existing document survives unchanged, a fresh store
is seeded with 20 coins, and the repeated call is a no-op. -/
theorem createUserDocument_idempotent_witness :
    createUserDocument (some sampleUserDoc) sampleAuthUser "2026-10-12" = some sampleUserDoc ∧
    (createUserDocument (none : Option UserDoc) sampleAuthUser "2026-10-12").map
        UserDoc.coins = some 20 ∧
    createUserDocument (createUserDocument none sampleAuthUser "2026-10-12") sampleAuthUser
        "2026-10-12" = createUserDocument none sampleAuthUser "2026-10-12" :=
  ⟨(createUserDocument_idempotent (some sampleUserDoc) sampleAuthUser "2026-10-12").1
      sampleUserDoc rfl,
   (createUserDocument_idempotent none sampleAuthUser "2026-10-12").2.1 rfl,
   (createUserDocument_idempotent none sampleAuthUser "2026-10-12").2.2 sampleAuthUser
      "2026-10-12"⟩

/-- Invoking handleChoice through a key whose stream segment is found reduces
to handleChoice on that segment. -/
theorem handleChoiceAtKey_eq (st : ReaderState) (k : Nat × Nat) (seg : StreamSegment)
    (c : String) (t : Nat)
    (hfound : st.storySegments.find? (segmentMatchesKey k) = some seg) :
    handleChoiceAtKey st k c t = handleChoice st seg c t := by
  unfold handleChoiceAtKey
  rw [hfound]

/-- C3 (amended): recording a non-empty first choice c1 for a decision key
and then recording any second choice c2 for the same key leaves the stored
record at c1: the second call finds the segment already carrying a truthy
selectedChoice and no-ops, so the first write wins. -/
theorem handleChoice_first_write_wins (st : ReaderState) (k : Nat × Nat) (seg : StreamSegment)
    (c1 c2 : String) (t1 t2 : Nat)
    (hfound : st.storySegments.find? (segmentMatchesKey k) = some seg)
    (hunanswered : strTruthy seg.selectedChoice = false)
    (hc1 : c1 ≠ "") :
    handleChoiceAtKey (handleChoiceAtKey st k c1 t1) k c2 t2 =
      handleChoiceAtKey st k c1 t1 ∧
    (hfind (handleChoiceAtKey st k c1 t1).decisionHistory k).map DecisionRecord.choice =
      some c1 := by
  have hkey : seg.chapterIndex = k.1 ∧ seg.index = k.2 := by
    have h1 := List.find?_some hfound
    simpa [segmentMatchesKey] using h1
  have hkpair : (seg.chapterIndex, seg.index) = k := by
    obtain ⟨a, b⟩ := k
    simp only [Prod.mk.injEq]
    exact ⟨hkey.1, hkey.2⟩
  have hguard : ¬ (strTruthy seg.selectedChoice = true) := by
    simp [hunanswered]
  have hst1 : handleChoiceAtKey st k c1 t1 =
      { st with
        storySegments := st.storySegments.map fun s =>
          if s.index = seg.index ∧ s.chapterIndex = seg.chapterIndex then
            { s with selectedChoice := some c1,
                     responses := rset s.responses c1 (resolveResponse seg.responses c1) }
          else s,
        decisionHistory :=
          hset st.decisionHistory (seg.chapterIndex, seg.index)
            { choice := c1, response := resolveResponse seg.responses c1,
              chapterIndex := seg.chapterIndex, segmentIndex := seg.index,
              timestamp := t1 } } := by
    rw [handleChoiceAtKey_eq st k seg c1 t1 hfound]
    unfold handleChoice
    rw [if_neg hguard]
  have hpres : ∀ s, segmentMatchesKey k
      ((fun s =>
        if s.index = seg.index ∧ s.chapterIndex = seg.chapterIndex then
          { s with selectedChoice := some c1,
                   responses := rset s.responses c1 (resolveResponse seg.responses c1) }
        else s) s) = segmentMatchesKey k s := by
    intro s
    by_cases hcond : s.index = seg.index ∧ s.chapterIndex = seg.chapterIndex
    · simp [hcond, segmentMatchesKey]
    · simp [hcond]
  have hA : (handleChoiceAtKey st k c1 t1).storySegments =
      st.storySegments.map fun s =>
        if s.index = seg.index ∧ s.chapterIndex = seg.chapterIndex then
          { s with selectedChoice := some c1,
                   responses := rset s.responses c1 (resolveResponse seg.responses c1) }
        else s := by
    rw [hst1]
  have hfound2 : (handleChoiceAtKey st k c1 t1).storySegments.find? (segmentMatchesKey k) =
      some { seg with selectedChoice := some c1,
                      responses := rset seg.responses c1 (resolveResponse seg.responses c1) } := by
    rw [hA, find?_map_eq _ _ hpres, hfound]
    simp
  have hans2 : strTruthy (some c1) = true := by
    simp [strTruthy, hc1]
  constructor
  · rw [handleChoiceAtKey_eq (handleChoiceAtKey st k c1 t1) k _ c2 t2 hfound2]
    unfold handleChoice
    rw [if_pos hans2]
  · have hB : (handleChoiceAtKey st k c1 t1).decisionHistory =
        hset st.decisionHistory (seg.chapterIndex, seg.index)
          { choice := c1, response := resolveResponse seg.responses c1,
            chapterIndex := seg.chapterIndex, segmentIndex := seg.index,
            timestamp := t1 } := by
      rw [hst1]
    rw [hB, hkpair, hfind_hset_self]
    rfl

/-- Witness for C3: on a stream whose decision (0, 0) is unanswered, choosing
left and then right leaves the record at left and the second call changes
nothing. -/
theorem handleChoice_first_write_wins_witness :
    handleChoiceAtKey (handleChoiceAtKey sampleReaderState (0, 0) "left" 1) (0, 0)
        "right" 2 = handleChoiceAtKey sampleReaderState (0, 0) "left" 1 ∧
    (hfind (handleChoiceAtKey sampleReaderState (0, 0) "left" 1).decisionHistory
        (0, 0)).map DecisionRecord.choice = some "left" :=
  handleChoice_first_write_wins sampleReaderState (0, 0) sampleDecisionStream "left" "right"
    1 2 (by decide) (by decide) (by decide)

/-- Counterexample for C3 as stated: with first choice the empty string (a
falsy selectedChoice in the source) and second choice right, the guard does
not trip and the second write overwrites the record, so with c1 empty and
c2 = right (distinct choices) the stored record ends at c2, not c1. -/
theorem handleChoice_empty_first_choice_overwritten :
    ("" : String) ≠ "right" ∧
    (hfind (handleChoiceAtKey (handleChoiceAtKey sampleReaderState (0, 0) "" 1) (0, 0)
        "right" 2).decisionHistory (0, 0)).map DecisionRecord.choice = some "right" := by
  constructor
  · decide
  · decide

/-- C7 (amended): on an ambiguous progress-load failure (any thrown read
error, not only a confirmed not-found) the catch branch silently starts the
reader from chapter zero with an empty decision history: chapter 0 is loaded
immediately and no remote progress is applied. -/
theorem loadUserProgress_ambiguous_fallback (story : Story) (hne : story.chapters ≠ []) :
    (loadUserProgress story ProgressLoadResult.failed).readerState.decisionHistory = [] ∧
    (loadUserProgress story ProgressLoadResult.failed).readerState.loadedChapters = [0] ∧
    (loadUserProgress story ProgressLoadResult.failed).readerState.currentChapterIndex = 0 := by
  obtain ⟨c, rest, hc⟩ : ∃ c rest, story.chapters = c :: rest := by
    cases h : story.chapters with
    | nil => exact absurd h hne
    | cons c rest => exact ⟨c, rest, rfl⟩
  unfold loadUserProgress loadChapterContent initialReaderState
  rw [hc]
  simp

/-- Witness for C7 (amended) on the concrete two-chapter sample story. -/
theorem loadUserProgress_ambiguous_fallback_witness :
    (loadUserProgress sampleStory ProgressLoadResult.failed).readerState.decisionHistory
        = [] ∧
    (loadUserProgress sampleStory ProgressLoadResult.failed).readerState.loadedChapters
        = [0] ∧
    (loadUserProgress sampleStory
        ProgressLoadResult.failed).readerState.currentChapterIndex = 0 :=
  loadUserProgress_ambiguous_fallback sampleStory (by decide)

/-- Counterexample for C7 as stated: after an ambiguous (thrown) load error,
the reader state holds an empty decision history, chapter 0 loaded, and the
fresh chapter-0 stream: the silent fall-back to starting from zero that the
claim says must never happen. -/
theorem ambiguous_failure_starts_reader_from_zero :
    (loadUserProgress sampleStory ProgressLoadResult.failed).readerState.decisionHistory
        = [] ∧
    (loadUserProgress sampleStory ProgressLoadResult.failed).readerState.loadedChapters
        = [0] ∧
    (loadUserProgress sampleStory ProgressLoadResult.failed).readerState.storySegments =
      buildSegments [] 0 "One" 0 sampleChapterSegs := by
  refine ⟨?_, ?_, ?_⟩
  · decide
  · decide
  · decide

/-- C8 (amended): loading a chapter whose segments list is empty is not a
validation failure: it appends no segments to the stream, raises no error
(the loader has no error channel), and simply marks the chapter loaded,
updating the current chapter index. -/
theorem loadChapterContent_empty_chapter (story : Story) (st : ReaderState) (ci : Nat)
    (ch : Chapter) (hch : story.chapters[ci]? = some ch) (hempty : ch.segments = [])
    (hnew : ci ∉ st.loadedChapters) :
    loadChapterContent story st ci =
      { st with loadedChapters := st.loadedChapters ++ [ci],
                currentChapterIndex := max st.currentChapterIndex ci } := by
  unfold loadChapterContent
  rw [hch]
  simp [hnew, hempty, buildSegments]

/-- Witness for C8 (amended) on the concrete empty-chapter story. -/
theorem loadChapterContent_empty_chapter_witness :
    loadChapterContent emptyChapterStory initialReaderState 0 =
      { initialReaderState with
          loadedChapters := initialReaderState.loadedChapters ++ [0],
          currentChapterIndex := max initialReaderState.currentChapterIndex 0 } :=
  loadChapterContent_empty_chapter emptyChapterStory initialReaderState 0
    { title := "Empty", segments := [] } (by decide) rfl (by decide)

/-- Counterexample for C8 as stated: building the stream for the story whose
only chapter has an empty segments list does not fail with any error; it
returns a normal state with nothing appended and the chapter marked loaded
(the fetch layer likewise returns the empty chapter with only a console
warning, storyService.ts lines 77-83). -/
theorem empty_chapter_appends_nothing_and_continues :
    loadChapterContent emptyChapterStory initialReaderState 0 =
      { storySegments := [], loadedChapters := [0], currentChapterIndex := 0,
        decisionHistory := [] } := by
  decide

end Fableist
